import Mathlib

/-
Verification of the Sunbeam deployment orchestrator (snap-openstack).
Shallow embedding of the Plan/Step execution engine, the step run bodies of
the instance-recovery and observability features, the certificates skip
check, and the deployments registry, together with theorems settling the
specification claims about them.
-/

namespace Sunbeam

/-- Modelled from the spec: the tri-state outcome tag of a step
(COMPLETED, SKIPPED, FAILED).  The concrete class ResultType lives in
sunbeam.core.common, which is not under src/. -/
inductive ResultType
  | completed
  | skipped
  | failed
deriving DecidableEq, Repr

/-- Modelled from the spec: the immutable outcome value returned by a step,
a ResultType together with an optional message.  The concrete class Result
lives in sunbeam.core.common, which is not under src/. -/
structure Result where
  result_type : ResultType
  message : Option String := none
deriving DecidableEq, Repr

/-- Modelled from the spec: the exceptions raised by the provisioning and
orchestration collaborators (TerraformException from sunbeam.core.terraform,
JujuWaitException and TimeoutException from sunbeam.core.juju, none of which
are under src/).  A value of this type escaping a step run is an exception
propagating past the step boundary. -/
inductive StepError
  | terraform (msg : String)
  | jujuWait (msg : String)
  | timeout (msg : String)
deriving DecidableEq, Repr

/-- Outcome of the provisioning collaborator call
(update_tfvars_and_apply_tf or destroy): either it returns, or it raises a
TerraformException carrying a message. -/
inductive TfApplyOutcome
  | ok
  | terraformError (msg : String)
deriving DecidableEq, Repr

/-- Outcome of an orchestration-controller wait call
(wait_until_desired_status, wait_until_active, wait_model_gone,
wait_application_gone): per the collaborator contract each such call either
returns, raises a JujuWaitException, or raises a TimeoutException. -/
inductive JujuWaitOutcome
  | ok
  | jujuWaitError (msg : String)
  | timeoutError (msg : String)
deriving DecidableEq, Repr

/-- State of the background status-polling task at the moment the step run
returns.  In the asyncio model, task.cancel() only requests cancellation:
the CancelledError is delivered to the task on a later cycle of the event
loop, so cancelRequested is not a terminal state. -/
inductive TaskFinal
  | notStarted
  | finished
  | cancelRequested
deriving DecidableEq, Repr

/-- Whether the background task has actually reached a terminal state by
the time the step run returns (never started counts as terminal; a task
whose cancellation was merely requested has not terminated). -/
def TaskFinal.terminatedAtReturn : TaskFinal → Bool
  | .notStarted => true
  | .finished => true
  | .cancelRequested => false

/-- Everything observable when a step run that may start a background
status-polling task returns: the run outcome (an escaping StepError models
an uncaught exception) and the final state of the background task. -/
structure RunExit where
  outcome : Except StepError Result
  taskFinal : TaskFinal
deriving Repr

namespace DeployConsulClientStep

/-- Shallow embedding of DeployConsulClientStep.run
(sunbeam/features/instance_recovery/feature.py, lines 190-226).
The terraform apply is tried first; a TerraformException is caught and
converted to Result(FAILED, str(e)).  Then the background status task is
started and the wait_until_desired_status call runs; JujuWaitException and
TimeoutException are both caught and converted to Result(FAILED, str(e)).
The finally block runs task.cancel() when the task has not finished, which
only requests cancellation; control returns immediately afterwards.
taskDoneAtWaitExit says whether the background task had already finished
when the finally block ran. -/
def run (app : TfApplyOutcome) (wait : JujuWaitOutcome)
    (taskDoneAtWaitExit : Bool) : RunExit :=
  match app with
  | .terraformError e =>
    { outcome := .ok { result_type := .failed, message := some e },
      taskFinal := .notStarted }
  | .ok =>
    let tf : TaskFinal :=
      if taskDoneAtWaitExit then .finished else .cancelRequested
    match wait with
    | .ok =>
      { outcome := .ok { result_type := .completed }, taskFinal := tf }
    | .jujuWaitError e =>
      { outcome := .ok { result_type := .failed, message := some e },
        taskFinal := tf }
    | .timeoutError e =>
      { outcome := .ok { result_type := .failed, message := some e },
        taskFinal := tf }

end DeployConsulClientStep

namespace DeployObservabilityStackStep

/-- Shallow embedding of DeployObservabilityStackStep.run
(sunbeam/plugins/observability/plugin.py, lines 93-135).  Structure is the
same as DeployConsulClientStep.run: TerraformException caught before the
task starts; JujuWaitException and TimeoutException both caught after; the
finally block runs task.cancel() when the task has not finished. -/
def run (app : TfApplyOutcome) (wait : JujuWaitOutcome)
    (taskDoneAtWaitExit : Bool) : RunExit :=
  match app with
  | .terraformError e =>
    { outcome := .ok { result_type := .failed, message := some e },
      taskFinal := .notStarted }
  | .ok =>
    let tf : TaskFinal :=
      if taskDoneAtWaitExit then .finished else .cancelRequested
    match wait with
    | .ok =>
      { outcome := .ok { result_type := .completed }, taskFinal := tf }
    | .jujuWaitError e =>
      { outcome := .ok { result_type := .failed, message := some e },
        taskFinal := tf }
    | .timeoutError e =>
      { outcome := .ok { result_type := .failed, message := some e },
        taskFinal := tf }

end DeployObservabilityStackStep

namespace RemoveConsulClientStep

/-- Shallow embedding of RemoveConsulClientStep.run
(sunbeam/features/instance_recovery/feature.py, lines 250-275).
The destroy call catches TerraformException; the wait_application_gone call
catches only TimeoutException, so a JujuWaitException from the wait
propagates out of run as an uncaught exception. -/
def run (destroy : TfApplyOutcome) (wait : JujuWaitOutcome) :
    Except StepError Result :=
  match destroy with
  | .terraformError e => .ok { result_type := .failed, message := some e }
  | .ok =>
    match wait with
    | .ok => .ok { result_type := .completed }
    | .timeoutError e => .ok { result_type := .failed, message := some e }
    | .jujuWaitError e => .error (.jujuWait e)

end RemoveConsulClientStep

namespace RemoveObservabilityStackStep

/-- Shallow embedding of RemoveObservabilityStackStep.run
(sunbeam/plugins/observability/plugin.py, lines 261-281).
The destroy call catches TerraformException; the wait_model_gone call
catches only TimeoutException, so a JujuWaitException from the wait
propagates out of run as an uncaught exception. -/
def run (destroy : TfApplyOutcome) (wait : JujuWaitOutcome) :
    Except StepError Result :=
  match destroy with
  | .terraformError e => .ok { result_type := .failed, message := some e }
  | .ok =>
    match wait with
    | .ok => .ok { result_type := .completed }
    | .timeoutError e => .ok { result_type := .failed, message := some e }
    | .jujuWaitError e => .error (.jujuWait e)

end RemoveObservabilityStackStep

/-- Outcome of the jhelper.get_application lookup inside
DeployCertificatesProviderApplicationStep.is_skip: either the application is
found in the model, or ApplicationNotFoundException is raised. -/
inductive AppLookup
  | found
  | notFound
deriving DecidableEq, Repr

namespace DeployCertificatesProviderApplicationStep

/-- Shallow embedding of DeployCertificatesProviderApplicationStep.is_skip
(sunbeam/steps/certificates.py, lines 53-62).  When get_application raises
ApplicationNotFoundException the step returns COMPLETED (proceed); when the
application is found it returns SKIPPED (nothing to do). -/
def is_skip (lookup : AppLookup) : Result :=
  match lookup with
  | .notFound => { result_type := .completed }
  | .found => { result_type := .skipped }

end DeployCertificatesProviderApplicationStep

/-- A named deployment in the registry.  Only the name takes part in the
registry logic under verification (sunbeam.core.deployment is not under
src/; the name attribute is all that deployments.py consults). -/
structure Deployment where
  name : String
deriving DecidableEq, Repr

/-- Shallow embedding of the DeploymentsConfig pydantic model
(sunbeam/core/deployments.py): the active deployment name and the list of
deployments. -/
structure DeploymentsConfig where
  active : Option String := none
  deployments : List Deployment := []
deriving DecidableEq, Repr

namespace DeploymentsConfig

/-- Shallow embedding of DeploymentsConfig.get_deployment
(sunbeam/core/deployments.py, lines 85-90): first deployment with the given
name, else ValueError. -/
def get_deployment (c : DeploymentsConfig) (name : String) :
    Except String Deployment :=
  match c.deployments.find? (fun d => d.name == name) with
  | some d => .ok d
  | none => .error s!"Deployment {name} not found in deployments."

/-- Shallow embedding of DeploymentsConfig.get_active
(sunbeam/core/deployments.py, lines 99-109).  The Python guard is
if not active, which is taken both when active is None and when active is
the empty string; only past that guard is the name looked up. -/
def get_active (c : DeploymentsConfig) : Except String Deployment :=
  match c.active with
  | none => .error "No active deployment found."
  | some active =>
    if active = "" then .error "No active deployment found."
    else
      match c.get_deployment active with
      | .ok d => .ok d
      | .error _ =>
        .error s!"Active deployment {active} not found in configuration."

/-- Shallow embedding of DeploymentsConfig.add_deployment
(sunbeam/core/deployments.py, lines 111-123).  Returns the raised error or
unit, the configuration afterwards, and whether write() was called. -/
def add_deployment (c : DeploymentsConfig) (d : Deployment) :
    Except String Unit × DeploymentsConfig × Bool :=
  match c.get_deployment d.name with
  | .ok _ => (.error s!"Deployment {d.name} already exists.", c, false)
  | .error _ =>
    (.ok (),
     { active := some d.name, deployments := c.deployments ++ [d] },
     true)

/-- Shallow embedding of DeploymentsConfig.switch
(sunbeam/core/deployments.py, lines 135-145).  The first check is
if self.active == name: return, taken before any existence check.  Returns
the raised error or unit, the configuration afterwards, and whether
write() was called. -/
def switch (c : DeploymentsConfig) (name : String) :
    Except String Unit × DeploymentsConfig × Bool :=
  if c.active = some name then (.ok (), c, false)
  else
    match c.deployments.find? (fun d => d.name == name) with
    | some _ => (.ok (), { c with active := some name }, true)
    | none => (.error s!"Deployment {name} not found in deployments.", c, false)

end DeploymentsConfig

/-- Content of the registry file at a crash point during
DeploymentsConfig.write: the original serialised configuration, a
mid-copy truncated state, or the new serialised configuration. -/
inductive RegistryContent
  | oldContent
  | midCopy
  | newContent
deriving DecidableEq, Repr

/-- Registry file state: its content and its permission mode. -/
structure RegistryFileState where
  content : RegistryContent
  mode : Nat
deriving DecidableEq, Repr

/-- The file-system operations performed by DeploymentsConfig.write
(sunbeam/core/deployments.py, lines 54-71), in order.  shutil.copy is not
atomic: copyfile opens the destination for writing, which truncates it,
and then streams the data, so it is modelled as two operations. -/
inductive WriteOp
  | dumpToTemp
  | truncateDest
  | copyDataToDest
  | chmodDest
deriving DecidableEq, Repr

/-- The operation sequence of DeploymentsConfig.write: serialise to the
temporary file (yaml.safe_dump plus flush), then shutil.copy to the
registry path (truncate, then stream), then chmod 0o600. -/
def write_ops : List WriteOp :=
  [.dumpToTemp, .truncateDest, .copyDataToDest, .chmodDest]

/-- Effect of one write operation on the registry file state. -/
def applyWriteOp (st : RegistryFileState) : WriteOp → RegistryFileState
  | .dumpToTemp => st
  | .truncateDest => { st with content := .midCopy }
  | .copyDataToDest => { st with content := .newContent }
  | .chmodDest => { st with mode := 0o600 }

/-- Registry file state if the process crashes after exactly crashPoint
operations of DeploymentsConfig.write have completed, starting from the
original content with mode initialMode. -/
def write_state_at (initialMode : Nat) (crashPoint : Nat) : RegistryFileState :=
  (write_ops.take crashPoint).foldl applyWriteOp
    { content := .oldContent, mode := initialMode }

/-- The transfer of DeploymentsConfig.write is atomic when at every crash
point the registry file holds either the original or the new content,
never a mid-copy state. -/
def write_transfer_atomic (initialMode : Nat) : Bool :=
  (List.range (write_ops.length + 1)).all fun k =>
    (write_state_at initialMode k).content == .oldContent
      || (write_state_at initialMode k).content == .newContent

/-- The mode passed to path.touch on first creation of the registry file by
deployment_path (sunbeam/core/deployments.py, line 163). -/
def deployment_path_touch_mode : Nat := 0o600

/-- The initial text written by deployment_path on first creation of the
registry file (sunbeam/core/deployments.py, line 164). -/
def deployment_path_initial_text : String := "\x7b\x7d"

/-- The three consul server networks
(ConsulServerNetworks in sunbeam/features/instance_recovery/feature.py,
lines 77-80), in enum declaration order. -/
inductive ConsulServerNetworks
  | management
  | tenant
  | storage
deriving DecidableEq, Repr

/-- The value attribute of each ConsulServerNetworks member. -/
def ConsulServerNetworks.value : ConsulServerNetworks → String
  | .management => "management"
  | .tenant => "tenant"
  | .storage => "storage"

/-- Enum declaration order of ConsulServerNetworks, as iterated by
dict.fromkeys(ConsulServerNetworks, False) and dict iteration. -/
def consul_server_networks : List ConsulServerNetworks :=
  [.management, .tenant, .storage]

/-- Result of deployment.get_space for the three networks consulted by
consul_servers_to_enable: some space name on success, none when get_space
raises ValueError. -/
structure DeploymentSpaces where
  management : Option String
  storage : Option String
  data : Option String
deriving DecidableEq, Repr

/-- Shallow embedding of InstanceRecoveryFeature.consul_servers_to_enable
(sunbeam/features/instance_recovery/feature.py, lines 431-465).  The local
variables management_space and storage_space hold the resolved space (none
on ValueError) and are compared against even when the corresponding server
is not enabled, exactly as in the source. -/
def consul_servers_to_enable (d : DeploymentSpaces) :
    ConsulServerNetworks → Bool :=
  let management_space := d.management
  let storage_space := d.storage
  let enableManagement := d.management.isSome
  let enableStorage :=
    match d.storage with
    | some s => decide (some s ≠ management_space)
    | none => false
  let enableTenant :=
    match d.data with
    | some t =>
      decide (some t ≠ management_space) && decide (some t ≠ storage_space)
    | none => false
  fun n =>
    match n with
    | .management => enableManagement
    | .storage => enableStorage
    | .tenant => enableTenant

/-- The Juju space each consul network resolves to for a deployment:
management and storage use their own spaces, tenant uses the data space
(Networks.DATA), as in consul_servers_to_enable. -/
def network_space (d : DeploymentSpaces) : ConsulServerNetworks → Option String
  | .management => d.management
  | .tenant => d.data
  | .storage => d.storage

/-- Shallow embedding of
InstanceRecoveryFeature.set_consul_client_application_names
(sunbeam/features/instance_recovery/feature.py, lines 516-523): one
consul-client application name per enabled consul network, in enum order. -/
def set_consul_client_application_names (d : DeploymentSpaces) : List String :=
  (consul_server_networks.filter (fun k => consul_servers_to_enable d k)).map
    (fun k => "consul-client-" ++ k.value)

/-- Shallow embedding of the wait-phase setup of DeployConsulClientStep.run
(sunbeam/features/instance_recovery/feature.py, lines 205-207): the
monitored application list and the progress queue capacity, created as
Queue(maxsize=len(apps)). -/
def deploy_consul_client_wait_setup (d : DeploymentSpaces) :
    List String × Nat :=
  let apps := set_consul_client_application_names d
  (apps, apps.length)

/-- Modelled from the spec: a step as seen by the plan runner, its skip
decision and its execution outcome (spec section 4.1).  BaseStep lives in
sunbeam.core.common, which is not under src/. -/
structure Step where
  is_skip : Result
  run : Result
deriving DecidableEq, Repr

/-- An invocation event recorded while the plan runner executes: the
is_skip or the run of the step at a given position. -/
inductive PlanEvent
  | calledIsSkip (k : Nat)
  | calledRun (k : Nat)
deriving DecidableEq, Repr

/-- The position of the step an event belongs to. -/
def PlanEvent.index : PlanEvent → Nat
  | .calledIsSkip k => k
  | .calledRun k => k

/-- What the plan runner reports to the caller: success, or failure
carrying the failed step message. -/
inductive PlanOutcome
  | success
  | failure (message : Option String)
deriving DecidableEq, Repr

/-- Modelled from the spec: run_plan from position i onwards (spec section
4.2; run_plan lives in sunbeam.core.common, which is not under src/).
For each step in order: call is_skip; on SKIPPED advance without calling
run; otherwise call run; on FAILED abort the remaining steps immediately
and report failure with the step message; otherwise continue.  Returns the
outcome and the list of invocation events in order. -/
def run_plan_from (steps : List Step) (i : Nat) :
    PlanOutcome × List PlanEvent :=
  match steps with
  | [] => (.success, [])
  | s :: rest =>
    if s.is_skip.result_type = .skipped then
      let r := run_plan_from rest (i + 1)
      (r.1, .calledIsSkip i :: r.2)
    else if s.run.result_type = .failed then
      (.failure s.run.message, [.calledIsSkip i, .calledRun i])
    else
      let r := run_plan_from rest (i + 1)
      (r.1, .calledIsSkip i :: .calledRun i :: r.2)

/-- Modelled from the spec: run_plan over a whole plan (spec section 4.2). -/
def run_plan (steps : List Step) : PlanOutcome × List PlanEvent :=
  run_plan_from steps 0

/-- Claim C1: in every step run that performs a provisioning apply or
destroy (DeployConsulClientStep.run, DeployObservabilityStackStep.run, and
the analogous RemoveConsulClientStep.run and RemoveObservabilityStackStep.run),
a TerraformException raised by the provisioning collaborator is caught and
turned into Result(FAILED, message) with the exception text as message, and
the exception never propagates past the step boundary (the run outcome is
an ok Result, not an escaping error). -/
theorem terraform_exception_converted (e : String) (w : JujuWaitOutcome)
    (t : Bool) :
    (DeployConsulClientStep.run (.terraformError e) w t).outcome
        = .ok { result_type := .failed, message := some e } ∧
    (DeployObservabilityStackStep.run (.terraformError e) w t).outcome
        = .ok { result_type := .failed, message := some e } ∧
    RemoveConsulClientStep.run (.terraformError e) w
        = .ok { result_type := .failed, message := some e } ∧
    RemoveObservabilityStackStep.run (.terraformError e) w
        = .ok { result_type := .failed, message := some e } :=
  ⟨rfl, rfl, rfl, rfl⟩

/-- Claim C3 counterexample: RemoveObservabilityStackStep.run catches only
TimeoutException around its wait, so an explicit wait failure
(JujuWaitException) is not converted to a FAILED Result: it propagates out
of the step as an uncaught exception. -/
theorem remove_observability_wait_failure_propagates :
    RemoveObservabilityStackStep.run .ok (.jujuWaitError "unit in error state")
      = .error (.jujuWait "unit in error state") := rfl

/-- Claim C3 (amended): DeployConsulClientStep.run catches both failure
kinds of its wait, JujuWaitException and TimeoutException, converting each
to Result(FAILED, message) with the message of that exception, so the two
kinds stay distinguishable through their messages; RemoveObservabilityStackStep.run
converts only TimeoutException, and a JujuWaitException propagates out of
the step uncaught. -/
theorem wait_failure_handling (e : String) (t : Bool) :
    (DeployConsulClientStep.run .ok (.jujuWaitError e) t).outcome
        = .ok { result_type := .failed, message := some e } ∧
    (DeployConsulClientStep.run .ok (.timeoutError e) t).outcome
        = .ok { result_type := .failed, message := some e } ∧
    RemoveObservabilityStackStep.run .ok (.timeoutError e)
        = .ok { result_type := .failed, message := some e } ∧
    RemoveObservabilityStackStep.run .ok (.jujuWaitError e)
        = .error (.jujuWait e) :=
  ⟨rfl, rfl, rfl, rfl⟩

/-- Claim C4 counterexample: on the success exit path of
DeployConsulClientStep.run with the background task still running, the
finally block only requests cancellation (task.cancel with no await), so
the task has not reached a terminal state when run returns: the polling
task outlives the step until the event loop next runs. -/
theorem deploy_consul_client_task_not_terminated :
    (DeployConsulClientStep.run .ok .ok false).taskFinal
        = .cancelRequested ∧
    ((DeployConsulClientStep.run .ok .ok false).taskFinal).terminatedAtReturn
        = false :=
  ⟨rfl, rfl⟩

/-- Claim C4 (amended): in DeployConsulClientStep.run and
DeployObservabilityStackStep.run, on every exit path taken after the
background status-polling task has been started (success, explicit wait
failure, and timeout), the finally block requests cancellation of the task
exactly when it has not already finished; run does not await the
cancellation, so acknowledgement is not observed before run returns. -/
theorem background_task_cancel_requested (w : JujuWaitOutcome) (t : Bool) :
    (DeployConsulClientStep.run .ok w t).taskFinal
        = (if t then TaskFinal.finished else TaskFinal.cancelRequested) ∧
    (DeployObservabilityStackStep.run .ok w t).taskFinal
        = (if t then TaskFinal.finished else TaskFinal.cancelRequested) := by
  cases w <;> exact ⟨rfl, rfl⟩

/-- Claim C5: DeployCertificatesProviderApplicationStep.is_skip returns a
Result with result_type COMPLETED exactly when the tls-operator application
is absent from the model (do not skip, proceed), and SKIPPED exactly when
the application exists (nothing to do, stop here). -/
theorem certificates_is_skip_polarity (lookup : AppLookup) :
    ((DeployCertificatesProviderApplicationStep.is_skip lookup).result_type
        = .completed ↔ lookup = .notFound) ∧
    ((DeployCertificatesProviderApplicationStep.is_skip lookup).result_type
        = .skipped ↔ lookup = .found) := by
  cases lookup <;>
    simp [DeployCertificatesProviderApplicationStep.is_skip]

/-- Claim C8: in the wait/poll setup of DeployConsulClientStep.run, the
progress queue shared with the background poller is bounded with capacity
exactly the number of tracked applications, which is the number of enabled
consul networks. -/
theorem deploy_consul_client_queue_capacity (d : DeploymentSpaces)
    (hne : set_consul_client_application_names d ≠ []) :
    (deploy_consul_client_wait_setup d).1
        = set_consul_client_application_names d ∧
    (deploy_consul_client_wait_setup d).2
        = (set_consul_client_application_names d).length ∧
    (deploy_consul_client_wait_setup d).2
        = (consul_server_networks.filter
            (fun k => consul_servers_to_enable d k)).length := by
  refine ⟨rfl, rfl, ?_⟩
  simp [deploy_consul_client_wait_setup, set_consul_client_application_names]

/-- Witness for claim C8 at a deployment with only a management space. -/
theorem deploy_consul_client_queue_capacity_witness :
    set_consul_client_application_names ⟨some "alpha", none, none⟩ ≠ [] ∧
    (deploy_consul_client_wait_setup ⟨some "alpha", none, none⟩).2
        = (set_consul_client_application_names ⟨some "alpha", none, none⟩).length :=
  ⟨by decide,
   (deploy_consul_client_queue_capacity ⟨some "alpha", none, none⟩
     (by decide)).2.1⟩

/-- Claim C9 counterexample: the transfer of DeploymentsConfig.write to the
registry path is a plain shutil.copy, not an atomic replace: at the crash
point between the truncation of the destination and the completion of the
data copy the registry file holds neither the original nor the new
content. -/
theorem write_transfer_not_atomic :
    write_transfer_atomic 0o600 = false ∧
    write_state_at 0o600 2 = { content := .midCopy, mode := 0o600 } :=
  ⟨rfl, rfl⟩

/-- Claim C9 (amended): DeploymentsConfig.write serialises the
configuration to a temporary file first, leaving the registry untouched
until the copy begins (so an error during serialisation cannot corrupt the
original file), then copies over the registry path with a plain,
non-atomic copy, and after every completed write sets the registry mode to
exactly 0o600; deployment_path creates the registry file with mode
0o600. -/
theorem write_temp_then_copy_then_chmod (m : Nat) :
    write_state_at m 0 = { content := .oldContent, mode := m } ∧
    write_state_at m 1 = { content := .oldContent, mode := m } ∧
    write_state_at m 2 = { content := .midCopy, mode := m } ∧
    write_state_at m 3 = { content := .newContent, mode := m } ∧
    write_state_at m 4 = { content := .newContent, mode := 0o600 } ∧
    deployment_path_touch_mode = 0o600 :=
  ⟨rfl, rfl, rfl, rfl, rfl, rfl⟩

/-- Claim C6 counterexample: a registry whose active field is the empty
string, a name no deployment carries, makes get_active raise the
no-active-deployment error (the Python guard if not active treats the
empty string like None), not the not-found error that names the active
deployment. -/
theorem get_active_empty_active_counterexample :
    DeploymentsConfig.get_active ⟨some "", []⟩
      = .error "No active deployment found." ∧
    DeploymentsConfig.get_active ⟨some "", []⟩
      ≠ .error "Active deployment  not found in configuration." := by
  refine ⟨rfl, ?_⟩
  intro h
  rw [DeploymentsConfig.get_active] at h
  simp at h

/-- Claim C6 (amended): for every configuration whose active field is a
nonempty name n with no deployment named n, get_active raises the
ValueError naming n as not found, never silently falling back; when active
is unset (or the empty string, which the source guard treats the same),
get_active raises the no-active-deployment ValueError. -/
theorem get_active_missing_raises (c : DeploymentsConfig) (n : String) :
    (c.active = some n → n ≠ "" → (∀ d ∈ c.deployments, d.name ≠ n) →
      c.get_active
        = .error s!"Active deployment {n} not found in configuration.") ∧
    (c.active = none →
      c.get_active = .error "No active deployment found.") := by
  constructor
  · intro ha hn hmiss
    have hfind : c.deployments.find? (fun d => d.name == n) = none := by
      rw [List.find?_eq_none]
      intro d hd
      simpa using hmiss d hd
    simp [DeploymentsConfig.get_active, ha, hn,
      DeploymentsConfig.get_deployment, hfind]
  · intro ha
    simp [DeploymentsConfig.get_active, ha]

/-- Witness for claim C6 at a registry with active foo and one deployment
named bar, and at a registry with active unset. -/
theorem get_active_missing_raises_witness :
    DeploymentsConfig.get_active ⟨some "foo", [⟨"bar"⟩]⟩
      = .error "Active deployment foo not found in configuration." ∧
    DeploymentsConfig.get_active ⟨none, []⟩
      = .error "No active deployment found." :=
  ⟨(get_active_missing_raises ⟨some "foo", [⟨"bar"⟩]⟩ "foo").1 rfl
      (by decide) (by decide),
   (get_active_missing_raises ⟨none, []⟩ "x").2 rfl⟩

/-- Claim C7 counterexample: switching to the name that is already active
returns as a successful no-op before any existence check, so with active
foo and an empty deployment list, switch foo neither raises a ValueError
nor writes, although no deployment is named foo. -/
theorem switch_active_missing_counterexample :
    DeploymentsConfig.switch ⟨some "foo", []⟩ "foo"
      = (.ok (), ⟨some "foo", []⟩, false) ∧
    (Except.ok () : Except String Unit)
      ≠ .error "Deployment foo not found in deployments." := by
  refine ⟨rfl, ?_⟩
  intro h
  exact Except.noConfusion h

/-- Claim C7 (amended): add_deployment raises a ValueError and leaves the
configuration unchanged with no registry write when a deployment of the
same name exists, and otherwise appends the deployment, makes it active
and writes; switch first returns as a no-op (no write) whenever the name
is already active, even if no deployment carries it, otherwise raises a
ValueError and changes nothing when no deployment carries the name, and
otherwise sets the active name and writes. -/
theorem add_deployment_switch_spec :
    (∀ (c : DeploymentsConfig) (d : Deployment),
      (∃ x ∈ c.deployments, x.name = d.name) →
      c.add_deployment d
        = (.error s!"Deployment {d.name} already exists.", c, false)) ∧
    (∀ (c : DeploymentsConfig) (d : Deployment),
      (∀ x ∈ c.deployments, x.name ≠ d.name) →
      c.add_deployment d
        = (.ok (), ⟨some d.name, c.deployments ++ [d]⟩, true)) ∧
    (∀ (c : DeploymentsConfig) (n : String), c.active = some n →
      c.switch n = (.ok (), c, false)) ∧
    (∀ (c : DeploymentsConfig) (n : String), c.active ≠ some n →
      (∀ x ∈ c.deployments, x.name ≠ n) →
      c.switch n
        = (.error s!"Deployment {n} not found in deployments.", c, false)) ∧
    (∀ (c : DeploymentsConfig) (n : String), c.active ≠ some n →
      (∃ x ∈ c.deployments, x.name = n) →
      c.switch n = (.ok (), ⟨some n, c.deployments⟩, true)) := by
  refine ⟨?_, ?_, ?_, ?_, ?_⟩
  · intro c d hex
    obtain ⟨x, hx, hxn⟩ := hex
    have hfind : (c.deployments.find? (fun y => y.name == d.name)).isSome := by
      rw [List.find?_isSome]
      exact ⟨x, hx, by simp [hxn]⟩
    obtain ⟨y, hy⟩ := Option.isSome_iff_exists.mp hfind
    simp [DeploymentsConfig.add_deployment,
      DeploymentsConfig.get_deployment, hy]
  · intro c d hmiss
    have hfind : c.deployments.find? (fun y => y.name == d.name) = none := by
      rw [List.find?_eq_none]
      intro y hy
      simpa using hmiss y hy
    simp [DeploymentsConfig.add_deployment,
      DeploymentsConfig.get_deployment, hfind]
  · intro c n ha
    simp [DeploymentsConfig.switch, ha]
  · intro c n ha hmiss
    have hfind : c.deployments.find? (fun y => y.name == n) = none := by
      rw [List.find?_eq_none]
      intro y hy
      simpa using hmiss y hy
    simp [DeploymentsConfig.switch, ha, hfind]
  · intro c n ha hex
    obtain ⟨x, hx, hxn⟩ := hex
    have hfind : (c.deployments.find? (fun y => y.name == n)).isSome := by
      rw [List.find?_isSome]
      exact ⟨x, hx, by simp [hxn]⟩
    obtain ⟨y, hy⟩ := Option.isSome_iff_exists.mp hfind
    simp [DeploymentsConfig.switch, ha, hy]

/-- Witness for claim C7: a fresh add, a switch to an existing other
deployment, and a switch to a missing non-active name. -/
theorem add_deployment_switch_spec_witness :
    DeploymentsConfig.add_deployment ⟨none, []⟩ ⟨"dep1"⟩
      = (.ok (), ⟨some "dep1", [⟨"dep1"⟩]⟩, true) ∧
    DeploymentsConfig.switch ⟨some "dep1", [⟨"dep1"⟩, ⟨"dep2"⟩]⟩ "dep2"
      = (.ok (), ⟨some "dep2", [⟨"dep1"⟩, ⟨"dep2"⟩]⟩, true) ∧
    DeploymentsConfig.switch ⟨some "dep1", []⟩ "dep3"
      = (.error "Deployment dep3 not found in deployments.",
         ⟨some "dep1", []⟩, false) :=
  ⟨add_deployment_switch_spec.2.1 ⟨none, []⟩ ⟨"dep1"⟩ (by decide),
   add_deployment_switch_spec.2.2.2.2 ⟨some "dep1", [⟨"dep1"⟩, ⟨"dep2"⟩]⟩
     "dep2" (by decide) (by decide),
   add_deployment_switch_spec.2.2.2.1 ⟨some "dep1", []⟩ "dep3"
     (by decide) (by decide)⟩

/-- Helper: management is enabled exactly when the management space
resolves. -/
theorem consul_management_iff (d : DeploymentSpaces) :
    consul_servers_to_enable d .management = true ↔
      d.management.isSome = true := by
  simp [consul_servers_to_enable]

/-- Helper: storage is enabled exactly when the storage space resolves and
differs from the management space value. -/
theorem consul_storage_iff (d : DeploymentSpaces) :
    consul_servers_to_enable d .storage = true ↔
      (d.storage.isSome = true ∧ d.storage ≠ d.management) := by
  cases hs : d.storage <;> simp [consul_servers_to_enable, hs]

/-- Helper: tenant is enabled exactly when the data space resolves and
differs from both the management and storage space values. -/
theorem consul_tenant_iff (d : DeploymentSpaces) :
    consul_servers_to_enable d .tenant = true ↔
      (d.data.isSome = true ∧ d.data ≠ d.management ∧ d.data ≠ d.storage) := by
  cases ht : d.data <;> simp [consul_servers_to_enable, ht]

/-- Helper: two distinct enabled consul networks never resolve to the same
Juju space. -/
theorem consul_enabled_spaces_distinct (d : DeploymentSpaces) :
    ∀ n₁ n₂, consul_servers_to_enable d n₁ = true →
      consul_servers_to_enable d n₂ = true → n₁ ≠ n₂ →
      network_space d n₁ ≠ network_space d n₂ := by
  intro n₁ n₂ h₁ h₂ hne
  cases n₁ <;> cases n₂
  · exact absurd rfl hne
  · exact fun h => ((consul_tenant_iff d).mp h₂).2.1 h.symm
  · exact fun h => ((consul_storage_iff d).mp h₂).2 h.symm
  · exact ((consul_tenant_iff d).mp h₁).2.1
  · exact absurd rfl hne
  · exact ((consul_tenant_iff d).mp h₁).2.2
  · exact ((consul_storage_iff d).mp h₁).2
  · exact fun h => ((consul_tenant_iff d).mp h₂).2.2 h.symm
  · exact absurd rfl hne

/-- Claim C10: consul_servers_to_enable enables the management network
exactly when a management space resolves; the storage network exactly when
a storage space resolves and differs from the management space; the tenant
network exactly when a data space resolves and differs from both the
management and storage spaces; hence no two enabled consul networks
resolve to the same Juju space, and a deployment with no resolvable spaces
enables none. -/
theorem consul_servers_to_enable_spec (d : DeploymentSpaces) :
    (consul_servers_to_enable d .management = true ↔
      d.management.isSome = true) ∧
    (consul_servers_to_enable d .storage = true ↔
      (d.storage.isSome = true ∧ d.storage ≠ d.management)) ∧
    (consul_servers_to_enable d .tenant = true ↔
      (d.data.isSome = true ∧ d.data ≠ d.management ∧ d.data ≠ d.storage)) ∧
    (∀ n₁ n₂, consul_servers_to_enable d n₁ = true →
      consul_servers_to_enable d n₂ = true → n₁ ≠ n₂ →
      network_space d n₁ ≠ network_space d n₂) ∧
    (d.management = none → d.storage = none → d.data = none →
      ∀ n, consul_servers_to_enable d n = false) :=
  ⟨consul_management_iff d, consul_storage_iff d, consul_tenant_iff d,
   consul_enabled_spaces_distinct d, by
     intro hm hs ht n
     cases n <;> simp [consul_servers_to_enable, hm, hs, ht]⟩

/-- Witness for claim C10: a deployment without spaces enables nothing,
and with three distinct spaces the management and storage networks resolve
to different spaces. -/
theorem consul_servers_to_enable_spec_witness :
    consul_servers_to_enable ⟨none, none, none⟩
      ConsulServerNetworks.management = false ∧
    network_space ⟨some "sp1", some "sp2", some "sp3"⟩
        ConsulServerNetworks.management
      ≠ network_space ⟨some "sp1", some "sp2", some "sp3"⟩
        ConsulServerNetworks.storage :=
  ⟨(consul_servers_to_enable_spec ⟨none, none, none⟩).2.2.2.2 rfl rfl rfl
      .management,
   (consul_servers_to_enable_spec ⟨some "sp1", some "sp2", some "sp3"⟩).2.2.2.1
      .management .storage (by decide) (by decide) (by decide)⟩

/-- Helper equation: the runner on an empty plan. -/
theorem run_plan_from_nil (i : Nat) :
    run_plan_from [] i = (.success, []) := rfl

/-- Helper equation: the runner when the head step decides SKIPPED. -/
theorem run_plan_from_cons_skip (s : Step) (rest : List Step) (i : Nat)
    (h : s.is_skip.result_type = .skipped) :
    run_plan_from (s :: rest) i =
      ((run_plan_from rest (i + 1)).1,
       .calledIsSkip i :: (run_plan_from rest (i + 1)).2) := by
  simp [run_plan_from, h]

/-- Helper equation: the runner when the head step runs and fails. -/
theorem run_plan_from_cons_failed (s : Step) (rest : List Step) (i : Nat)
    (h1 : ¬s.is_skip.result_type = .skipped)
    (h2 : s.run.result_type = .failed) :
    run_plan_from (s :: rest) i =
      (.failure s.run.message, [.calledIsSkip i, .calledRun i]) := by
  simp [run_plan_from, h1, h2]

/-- Helper equation: the runner when the head step runs without failing. -/
theorem run_plan_from_cons_cont (s : Step) (rest : List Step) (i : Nat)
    (h1 : ¬s.is_skip.result_type = .skipped)
    (h2 : ¬s.run.result_type = .failed) :
    run_plan_from (s :: rest) i =
      ((run_plan_from rest (i + 1)).1,
       .calledIsSkip i :: .calledRun i :: (run_plan_from rest (i + 1)).2) := by
  simp [run_plan_from, h1, h2]

/-- Helper: every event recorded from position i onwards belongs to a step
at position at least i. -/
theorem run_plan_from_event_indices :
    ∀ (steps : List Step) (i : Nat) (e : PlanEvent),
      e ∈ (run_plan_from steps i).2 → i ≤ e.index := by
  intro steps
  induction steps with
  | nil =>
    intro i e he
    simp [run_plan_from_nil] at he
  | cons s rest ih =>
    intro i e he
    by_cases h1 : s.is_skip.result_type = .skipped
    · rw [run_plan_from_cons_skip s rest i h1] at he
      rcases List.mem_cons.mp he with rfl | hmem
      · simp [PlanEvent.index]
      · have := ih (i + 1) e hmem
        omega
    · by_cases h2 : s.run.result_type = .failed
      · rw [run_plan_from_cons_failed s rest i h1 h2] at he
        simp only [List.mem_cons, List.mem_singleton] at he
        rcases he with rfl | rfl | hfalse
        · simp [PlanEvent.index]
        · simp [PlanEvent.index]
        · simp at hfalse
      · rw [run_plan_from_cons_cont s rest i h1 h2] at he
        rcases List.mem_cons.mp he with rfl | hmem
        · simp [PlanEvent.index]
        rcases List.mem_cons.mp hmem with rfl | hmem2
        · simp [PlanEvent.index]
        · have := ih (i + 1) e hmem2
          omega

/-- Helper: if the run of the step at relative position j was invoked and
that step failed, the runner from position i reports that step message and
records no event for any later position. -/
theorem run_plan_from_failed_aborts :
    ∀ (steps : List Step) (i j : Nat) (s : Step),
      steps.get? j = some s → s.run.result_type = .failed →
      PlanEvent.calledRun (i + j) ∈ (run_plan_from steps i).2 →
      (run_plan_from steps i).1 = .failure s.run.message ∧
      ∀ m, i + j < m →
        PlanEvent.calledRun m ∉ (run_plan_from steps i).2 ∧
        PlanEvent.calledIsSkip m ∉ (run_plan_from steps i).2 := by
  intro steps
  induction steps with
  | nil =>
    intro i j s hget _ hmem
    simp [run_plan_from_nil] at hmem
  | cons s₀ rest ih =>
    intro i j s hget hfail hmem
    by_cases h1 : s₀.is_skip.result_type = .skipped
    · rw [run_plan_from_cons_skip s₀ rest i h1] at hmem ⊢
      have hmem' : PlanEvent.calledRun (i + j) ∈ (run_plan_from rest (i + 1)).2 := by
        rcases List.mem_cons.mp hmem with heq | h
        · exact absurd heq (by simp)
        · exact h
      have hj : 1 ≤ j := by
        have := run_plan_from_event_indices rest (i + 1) _ hmem'
        simp [PlanEvent.index] at this
        omega
      obtain ⟨j', rfl⟩ : ∃ j', j = j' + 1 := ⟨j - 1, by omega⟩
      have hget' : rest.get? j' = some s := by simpa using hget
      have hmem'' :
          PlanEvent.calledRun ((i + 1) + j') ∈ (run_plan_from rest (i + 1)).2 := by
        have harith : i + (j' + 1) = (i + 1) + j' := by omega
        rwa [harith] at hmem'
      obtain ⟨hout, hrest⟩ := ih (i + 1) j' s hget' hfail hmem''
      refine ⟨hout, ?_⟩
      intro m hm
      obtain ⟨hr, hsk⟩ := hrest m (by omega)
      constructor
      · intro hc
        rcases List.mem_cons.mp hc with heq | h
        · exact absurd heq (by simp)
        · exact hr h
      · intro hc
        rcases List.mem_cons.mp hc with heq | h
        · have : m = i := by simpa using heq
          omega
        · exact hsk h
    · by_cases h2 : s₀.run.result_type = .failed
      · rw [run_plan_from_cons_failed s₀ rest i h1 h2] at hmem ⊢
        have hij : j = 0 := by
          simp only [List.mem_cons, List.mem_singleton] at hmem
          rcases hmem with h | h | hfalse
          · exact absurd h (by simp)
          · have : i + j = i := by simpa using h
            omega
          · simp at hfalse
        subst hij
        have hs : s₀ = s := by simpa using hget
        subst hs
        refine ⟨rfl, ?_⟩
        intro m hm
        constructor
        · intro hc
          simp only [List.mem_cons, List.mem_singleton] at hc
          rcases hc with h | h | hfalse
          · exact absurd h (by simp)
          · have : m = i := by simpa using h
            omega
          · simp at hfalse
        · intro hc
          simp only [List.mem_cons, List.mem_singleton] at hc
          rcases hc with h | h | hfalse
          · have : m = i := by simpa using h
            omega
          · exact absurd h (by simp)
          · simp at hfalse
      · rw [run_plan_from_cons_cont s₀ rest i h1 h2] at hmem ⊢
        have hsplit :
            PlanEvent.calledRun (i + j) = PlanEvent.calledRun i ∨
              PlanEvent.calledRun (i + j) ∈ (run_plan_from rest (i + 1)).2 := by
          rcases List.mem_cons.mp hmem with heq | h
          · exact absurd heq (by simp)
          · exact List.mem_cons.mp h
        rcases hsplit with heq | hmem'
        · have hij : i + j = i := by simpa using heq
          have hj0 : j = 0 := by omega
          subst hj0
          have hs : s₀ = s := by simpa using hget
          rw [← hs] at hfail
          exact absurd hfail h2
        · have hj : 1 ≤ j := by
            have := run_plan_from_event_indices rest (i + 1) _ hmem'
            simp [PlanEvent.index] at this
            omega
          obtain ⟨j', rfl⟩ : ∃ j', j = j' + 1 := ⟨j - 1, by omega⟩
          have hget' : rest.get? j' = some s := by simpa using hget
          have hmem'' :
              PlanEvent.calledRun ((i + 1) + j') ∈ (run_plan_from rest (i + 1)).2 := by
            have harith : i + (j' + 1) = (i + 1) + j' := by omega
            rwa [harith] at hmem'
          obtain ⟨hout, hrest⟩ := ih (i + 1) j' s hget' hfail hmem''
          refine ⟨hout, ?_⟩
          intro m hm
          obtain ⟨hr, hsk⟩ := hrest m (by omega)
          constructor
          · intro hc
            rcases List.mem_cons.mp hc with heq | hc2
            · exact absurd heq (by simp)
            rcases List.mem_cons.mp hc2 with heq | hc3
            · have : m = i := by simpa using heq
              omega
            · exact hr hc3
          · intro hc
            rcases List.mem_cons.mp hc with heq | hc2
            · have : m = i := by simpa using heq
              omega
            rcases List.mem_cons.mp hc2 with heq | hc3
            · exact absurd heq (by simp)
            · exact hsk hc3

/-- Claim C2: for every plan and every index k, if the run of step k was
invoked and returned a FAILED Result, then run_plan invokes none of the
later steps (neither their is_skip nor their run) and reports failure to
the caller carrying the message of step k. -/
theorem run_plan_failed_short_circuits (steps : List Step) (k : Nat)
    (s : Step) (hget : steps.get? k = some s)
    (hfail : s.run.result_type = .failed)
    (hmem : PlanEvent.calledRun k ∈ (run_plan steps).2) :
    (run_plan steps).1 = .failure s.run.message ∧
    ∀ m, k < m →
      PlanEvent.calledRun m ∉ (run_plan steps).2 ∧
      PlanEvent.calledIsSkip m ∉ (run_plan steps).2 := by
  have h := run_plan_from_failed_aborts steps 0 k s hget hfail
    (by simpa using hmem)
  refine ⟨h.1, ?_⟩
  intro m hm
  have := h.2 m (by omega)
  simpa using this

/-- Witness for claim C2: a three-step plan whose middle step fails with
message boom aborts with that message, and the third step is never
invoked. -/
theorem run_plan_failed_short_circuits_witness :
    (run_plan [⟨⟨.completed, none⟩, ⟨.completed, none⟩⟩,
               ⟨⟨.completed, none⟩, ⟨.failed, some "boom"⟩⟩,
               ⟨⟨.completed, none⟩, ⟨.completed, none⟩⟩]).1
      = .failure (some "boom") ∧
    PlanEvent.calledRun 2 ∉
      (run_plan [⟨⟨.completed, none⟩, ⟨.completed, none⟩⟩,
                 ⟨⟨.completed, none⟩, ⟨.failed, some "boom"⟩⟩,
                 ⟨⟨.completed, none⟩, ⟨.completed, none⟩⟩]).2 := by
  have h := run_plan_failed_short_circuits
    [⟨⟨.completed, none⟩, ⟨.completed, none⟩⟩,
     ⟨⟨.completed, none⟩, ⟨.failed, some "boom"⟩⟩,
     ⟨⟨.completed, none⟩, ⟨.completed, none⟩⟩]
    1 ⟨⟨.completed, none⟩, ⟨.failed, some "boom"⟩⟩ rfl rfl (by decide)
  exact ⟨h.1, (h.2 2 (by omega)).1⟩

end Sunbeam
